import Mathlib

/-!
Shallow embedding of `src/engine.py` (the Tank Maya engine shim): the
scene-event watcher, the engine-refresh coordination logic
(`refresh_engine` / `on_scene_event_callback`) and the deprecated
synchronous job queue (`add_to_queue` / `execute_queue`).

Host-side effects (Maya callbacks, menus, `MGlobal.display*`, the progress
bar) are modelled as explicit state plus an observable trace of calls, and
the external Tank API (`tank_from_path`, `context_from_path`,
`tank.platform.start_engine`) as an environment of functions that may
raise.  Python exceptions are modelled with `Except PyExc`: a branch of
`PyExc` per exception class the code distinguishes (`tank.TankError`,
`tank.TankEngineInitError`, anything else).
-/

namespace TkMaya

/-- A Tank context: opaque to this module beyond value equality
(`ctx == prev_context` in `refresh_engine`). -/
structure Context where
  project : Nat
  entity : Nat
  task : Nat
deriving DecidableEq, Repr

/-- Python exceptions distinguished by the code: `tank.TankError` (caught
around `tank_from_path`), `tank.TankEngineInitError` (caught around
`start_engine`), and any other exception (caught only at the top of
`on_scene_event_callback`). -/
inductive PyExc where
  | tankError (msg : String)
  | tankEngineInitError (msg : String)
  | other (msg : String)
deriving DecidableEq, Repr

/-- The message text an exception carries. -/
def PyExc.message : PyExc → String
  | .tankError m => m
  | .tankEngineInitError m => m
  | .other m => m

/-- Observable calls into the host / the Tank platform, recorded in order. -/
inductive Ev where
  | tankFromPathCall (path : String)
  | destroyCall (eid : Nat)
  | startEngineCall (ctx : Context)
  | displayInfo (msg : String)
  | displayError (msg : String)
  | logWarning (msg : String)
  | beginProgress (name : String)
  | progressStep (delta : Int)
  | jobDone (name : String)
  | logException (name : String)
  | endProgress
deriving DecidableEq, Repr

/-- `OpenMaya.MMessage` registration table: a counter handing out fresh
callback ids and the set of ids currently registered. -/
structure Registry where
  nextId : Nat
  active : List Nat
deriving DecidableEq, Repr

/-- `OpenMaya.MSceneMessage.addCallback`: registers a fresh id. -/
def addCallback (r : Registry) : Registry × Nat :=
  ({ nextId := r.nextId + 1, active := r.active ++ [r.nextId] }, r.nextId)

/-- `OpenMaya.MMessage.removeCallback`: drops an id from the table. -/
def removeCallback (r : Registry) (i : Nat) : Registry :=
  { r with active := r.active.erase i }

/-- The scene-event kinds watched by default:
`kAfterOpen`, `kAfterSave`, `kAfterNew` (as opaque tags). -/
def defaultSceneEvents : List Nat := [0, 1, 2]

/-- `SceneEventWatcher`: the callback ids it holds (`self.__message_ids`),
the captured callback data (`engine_name`, `prev_context` of the lambda it
routes events to), the watched events and the `run_once` flag. -/
structure SceneEventWatcher where
  message_ids : List Nat
  scene_events : List Nat
  cb_engine_name : String
  cb_prev_context : Context
  run_once : Bool
deriving DecidableEq, Repr

/-- `SceneEventWatcher.stop_watching`: remove every held callback id from
the registry, then clear `self.__message_ids`. -/
def stop_watching (r : Registry) (w : SceneEventWatcher) :
    Registry × SceneEventWatcher :=
  (w.message_ids.foldl removeCallback r, { w with message_ids := [] })

/-- Register one callback per requested scene event, returning the ids in
order (the loop body of `start_watching`; host-side subscription is
modelled as always succeeding — the `try/except continue` guard around a
failing `addCallback` is dead in this model and no claim depends on it). -/
def addCallbacksFor (r : Registry) : List Nat → Registry × List Nat
  | [] => (r, [])
  | _ :: rest =>
      let (r1, i) := addCallback r
      let (r2, is) := addCallbacksFor r1 rest
      (r2, i :: is)

/-- `SceneEventWatcher.start_watching`: stop first, then subscribe to each
scene event, then additionally to `kMayaExiting` for clean-up. -/
def start_watching (r : Registry) (w : SceneEventWatcher) :
    Registry × SceneEventWatcher :=
  let (r0, w0) := stop_watching r w
  let (r1, ids) := addCallbacksFor r0 w0.scene_events
  let (r2, exit_id) := addCallback r1
  (r2, { w0 with message_ids := ids ++ [exit_id] })

/-- `SceneEventWatcher.__init__`: record the callback data and immediately
`start_watching`. -/
def newWatcher (r : Registry) (en : String) (pc : Context)
    (run_once : Bool) : Registry × SceneEventWatcher :=
  start_watching r
    { message_ids := []
      scene_events := defaultSceneEvents
      cb_engine_name := en
      cb_prev_context := pc
      run_once := run_once }

/-- A running `MayaEngine`: an instance id, the context it was built for
and the persistent (non-one-shot) watcher its `init_engine` registered. -/
structure EngineObj where
  eid : Nat
  ctx : Context
  watcher : SceneEventWatcher
deriving DecidableEq, Repr

/-- The whole observable host/engine state threaded through the
coordinator: the Maya callback registry, the two menus' existence
(`TankMenuDisabled` and `TankMenu`), the Tank-global current engine
(`tank.platform.current_engine()`), the one-shot watchers created by
`on_scene_event_callback`, and the trace of observable calls. -/
structure SysState where
  reg : Registry
  disabledMenuShown : Bool
  tankMenuShown : Bool
  currentEngine : Option EngineObj
  oneShotWatchers : List SceneEventWatcher
  trace : List Ev
deriving DecidableEq, Repr

/-- The external Tank API and host document state as seen by one event:
the current scene name, `abspath`, `tank_from_path` (may raise),
`tk.context_from_path` (may raise) and the outcome of
`tank.platform.start_engine` (a fresh engine id, or a raise). -/
structure Env where
  sceneName : String
  abspath : String → String
  tank_from_path : String → Except PyExc Nat
  context_from_path : Nat → String → Context → Except PyExc Context
  start_engine_result : String → Nat → Context → Except PyExc Nat

/-- `create_tank_disabled_menu`: delete `TankMenu` if present, then render
the `TankMenuDisabled` menu. -/
def create_tank_disabled_menu (s : SysState) : SysState :=
  { s with tankMenuShown := false, disabledMenuShown := true }

/-- `engine.destroy()` for the Maya engine: record the call, run
`destroy_engine` (stop the engine's watcher, delete the `TankMenu`) and
clear the Tank-global current engine. -/
def EngineObj.destroy (s : SysState) (e : EngineObj) : SysState :=
  let (r, _) := stop_watching s.reg e.watcher
  { s with
    reg := r
    tankMenuShown := false
    currentEngine := none
    trace := s.trace ++ [Ev.destroyCall e.eid] }

/-- `tank.platform.start_engine(engine_name, tk, ctx)`: record the call;
on success build the engine whose `init_engine` registers a persistent
watcher capturing `(engine_name, ctx)` and whose `post_app_init` creates
the `TankMenu`, and set it as the Tank-global current engine; on failure
the raise propagates to the caller. -/
def start_engine (env : Env) (s : SysState) (engine_name : String)
    (tk : Nat) (ctx : Context) : SysState × Except PyExc EngineObj :=
  let s := { s with trace := s.trace ++ [Ev.startEngineCall ctx] }
  match env.start_engine_result engine_name tk ctx with
  | .error e => (s, .error e)
  | .ok eid =>
      let (r, w) := newWatcher s.reg engine_name ctx false
      let eng : EngineObj := { eid := eid, ctx := ctx, watcher := w }
      ({ s with reg := r, tankMenuShown := true, currentEngine := some eng },
       .ok eng)

/-- `refresh_engine(engine_name, prev_context)` (engine.py lines 90-146):
reset the disabled menu; keep the current engine on an empty scene name;
try `tank_from_path` (a `TankError` renders the disabled menu and keeps
the current engine); resolve the context; skip the rebuild when an engine
is active and the context is unchanged; otherwise destroy any current
engine and try `start_engine` (a `TankEngineInitError` renders the
disabled menu and returns `None`).  Any other raise propagates, with the
state mutations made so far kept (`Except.error`). -/
def refresh_engine (env : Env) (engine_name : String)
    (prev_context : Context) (s : SysState) :
    SysState × Except PyExc (Option EngineObj) :=
  let current_engine := s.currentEngine
  let s := if s.disabledMenuShown then { s with disabledMenuShown := false }
           else s
  if env.sceneName = "" then
    (s, .ok current_engine)
  else
    let new_path := env.abspath env.sceneName
    let s := { s with trace := s.trace ++ [Ev.tankFromPathCall new_path] }
    match env.tank_from_path new_path with
    | .error (.tankError m) =>
        let s := { s with trace := s.trace ++
          [Ev.displayInfo ("Tank Engine cannot be started: " ++ m)] }
        (create_tank_disabled_menu s, .ok current_engine)
    | .error e => (s, .error e)
    | .ok tk =>
        match env.context_from_path tk new_path prev_context with
        | .error e => (s, .error e)
        | .ok ctx =>
            if current_engine.isSome ∧ ctx = prev_context then
              (s, .ok current_engine)
            else
              let s := match current_engine with
                | some e => e.destroy s
                | none => s
              match start_engine env s engine_name tk ctx with
              | (s, .error (.tankEngineInitError m)) =>
                  let s := { s with trace := s.trace ++
                    [Ev.displayInfo ("Tank Engine cannot be started: " ++ m)] }
                  (create_tank_disabled_menu s, .ok none)
              | (s, .error e) => (s, .error e)
              | (s, .ok new_engine) => (s, .ok (some new_engine))

/-- `on_scene_event_callback(engine_name, prev_context)` (lines 148-170):
run `refresh_engine` with every exception caught (`displayError` with the
diagnostic message, `new_engine = None`); when no engine resulted, create
a one-shot `SceneEventWatcher` re-running this callback with the same
captured arguments. -/
def on_scene_event_callback (env : Env) (engine_name : String)
    (prev_context : Context) (s : SysState) : SysState :=
  let (s, res) := refresh_engine env engine_name prev_context s
  let (s, new_engine) :=
    match res with
    | .ok ne => (s, ne)
    | .error e =>
        ({ s with trace := s.trace ++
           [Ev.displayError
             ("There was a problem starting the Tank Engine: "
               ++ e.message)] },
         none)
  match new_engine with
  | some _ => s
  | none =>
      let (r, w) := newWatcher s.reg engine_name prev_context true
      { s with reg := r, oneShotWatchers := s.oneShotWatchers ++ [w] }

/-- `SceneEventWatcher.__scene_event_callback` fired for the `i`-th
one-shot watcher: stop it first (`run_once`), then run the captured
callback (`on_scene_event_callback`). -/
def fire_one_shot (env : Env) (s : SysState) (i : Nat) : SysState :=
  match s.oneShotWatchers[i]? with
  | none => s
  | some w =>
      let (r, w') := if w.run_once then stop_watching s.reg w
                     else (s.reg, w)
      let s := { s with reg := r,
                        oneShotWatchers := s.oneShotWatchers.set i w' }
      on_scene_event_callback env w.cb_engine_name w.cb_prev_context s

/-- A watcher is still armed: either a one-shot watcher holds live
registrations, or the current engine's persistent watcher does. -/
def SysState.watcherArmed (s : SysState) : Bool :=
  s.oneShotWatchers.any (fun w => !w.message_ids.isEmpty) ||
    (match s.currentEngine with
     | some e => !e.watcher.message_ids.isEmpty
     | none => false)

/-! ### The deprecated synchronous job queue
(`MayaEngine.add_to_queue` / `report_progress` / `execute_queue`). -/

/-- A value stored in a job's keyword-argument dict: an opaque caller
value, or the injected `report_progress` bound method. -/
inductive PyVal where
  | val (v : String)
  | progress_cb
deriving DecidableEq, Repr

/-- A Python dict of keyword arguments. -/
abbrev Dict := List (String × PyVal)

/-- `d[k]` lookup (first matching key; keys are unique in a dict). -/
def Dict.get : Dict → String → Option PyVal
  | [], _ => none
  | kv :: rest, k => if kv.1 = k then some kv.2 else Dict.get rest k

/-- `d[k] = v`: replace the value under an existing `k` in place (keeping
its position), or append the new key at the end — Python dict update
semantics. -/
def Dict.set : Dict → String → PyVal → Dict
  | [], k, v => [(k, v)]
  | kv :: rest, k, v =>
      if kv.1 = k then (k, v) :: rest else kv :: Dict.set rest k v

/-- A queued job's action, as data interpreted by the queue runner: call
the injected progress callback on each percentage in order, then either
return or raise. -/
structure JobAction where
  reports : List Int
  raises : Bool
deriving DecidableEq, Repr

/-- A queue item `qi`: `{"name": ..., "method": ..., "args": ...}`, where
`args` is a *reference* into the heap of dicts (Python passes the caller's
mapping object itself, not a copy). -/
structure Job where
  name : String
  method : JobAction
  args : Nat
deriving DecidableEq, Repr

/-- The engine state the queue methods touch: `self._queue`, the heap of
argument dicts (indexed by the references `Job.args` hold), the progress
counter `self._current_progress`, and the trace of progress-bar and log
calls. -/
structure QueueState where
  queue : List Job
  store : List Dict
  currentProgress : Int
  trace : List Ev
deriving DecidableEq, Repr

/-- Read the dict a reference points at (missing reference reads `[]`). -/
def QueueState.heapGet (s : QueueState) (ref : Nat) : Dict :=
  (s.store[ref]?).getD []

/-- Overwrite the dict a reference points at. -/
def QueueState.heapSet (s : QueueState) (ref : Nat) (d : Dict) : QueueState :=
  { s with store := s.store.set ref d }

/-- The deprecation warning both queue entry points log. -/
def deprecationMsg : String :=
  "The Engine Queue is now deprecated! Please contact support@shotgunsoftware.com"

/-- `add_to_queue(name, method, args)`: log the deprecation warning and
append the item `{name, method, args}` to `self._queue` (storing the
caller's args reference as-is). -/
def add_to_queue (s : QueueState) (name : String) (method : JobAction)
    (args : Nat) : QueueState :=
  { s with
    trace := s.trace ++ [Ev.logWarning deprecationMsg]
    queue := s.queue ++ [{ name := name, method := method, args := args }] }

/-- `report_progress(percent)`: step the Maya progress bar by the delta
from the last reported value and remember the new value. -/
def report_progress (s : QueueState) (percent : Int) : QueueState :=
  let delta := percent - s.currentProgress
  { s with
    trace := s.trace ++ [Ev.progressStep delta]
    currentProgress := percent }

/-- Run one job's action: report each percentage through the injected
callback, then succeed or raise (`false` = raised). -/
def runAction (s : QueueState) (a : JobAction) : QueueState × Bool :=
  (a.reports.foldl report_progress s, !a.raises)

/-- The `while len(self._queue) > 0` loop body of `execute_queue`, applied
to each item in FIFO order: begin progress under the job's name, reset the
progress counter, force-add `progress_callback` into the job's own args
dict (in place, through the stored reference), invoke the method with
those kwargs, log any raise (`log_exception`) and continue, and in all
cases end progress exactly once (`finally`). -/
def execute_queue_loop (s : QueueState) : List Job → QueueState
  | [] => s
  | qi :: rest =>
      let s := { s with
        trace := s.trace ++ [Ev.beginProgress qi.name]
        currentProgress := 0 }
      let kwargs := (s.heapGet qi.args).set "progress_callback" PyVal.progress_cb
      let s := s.heapSet qi.args kwargs
      let (s, ok) := runAction s qi.method
      let s := if ok then { s with trace := s.trace ++ [Ev.jobDone qi.name] }
               else { s with trace := s.trace ++ [Ev.logException qi.name] }
      let s := { s with trace := s.trace ++ [Ev.endProgress] }
      execute_queue_loop s rest

/-- `execute_queue()`: log the deprecation warning, then drain the queue
one item at a time (the loop pops the head before running it, so the
queue field is empty afterwards; actions in this model cannot enqueue). -/
def execute_queue (s : QueueState) : QueueState :=
  let s := { s with trace := s.trace ++ [Ev.logWarning deprecationMsg] }
  execute_queue_loop { s with queue := [] } s.queue

/-! ### Helper lemmas -/

/-- A freshly constructed watcher always holds live registrations (the
three scene events plus the exit event). -/
theorem newWatcher_message_ids (r : Registry) (en : String) (pc : Context)
    (b : Bool) : (newWatcher r en pc b).2.message_ids =
      [r.nextId, r.nextId + 1, r.nextId + 2, r.nextId + 3] := by
  simp [newWatcher, start_watching, stop_watching, addCallbacksFor,
    addCallback, defaultSceneEvents]

/-- A freshly constructed watcher keeps the data passed to it. -/
theorem newWatcher_fields (r : Registry) (en : String) (pc : Context)
    (b : Bool) : (newWatcher r en pc b).2.cb_engine_name = en ∧
      (newWatcher r en pc b).2.cb_prev_context = pc ∧
      (newWatcher r en pc b).2.run_once = b := by
  refine ⟨?_, ?_, ?_⟩ <;>
    simp [newWatcher, start_watching, stop_watching, addCallbacksFor,
      addCallback, defaultSceneEvents]

/-- On success, `start_engine` installs the new engine as the current one
and its `init_engine` watcher holds live registrations. -/
theorem start_engine_ok {env : Env} {s s' : SysState} {en : String}
    {tk : Nat} {ctx : Context} {e : EngineObj}
    (h : start_engine env s en tk ctx = (s', .ok e)) :
    s'.currentEngine = some e ∧ e.watcher.message_ids ≠ [] := by
  unfold start_engine at h
  revert h
  cases henv : env.start_engine_result en tk ctx with
  | error err => intro h; simp at h
  | ok eid =>
      intro h
      simp only [Prod.mk.injEq, Except.ok.injEq] at h
      obtain ⟨hs, he⟩ := h
      subst hs; subst he
      refine ⟨rfl, ?_⟩
      simp [newWatcher_message_ids]

/-! ### Concrete fixtures (used by counterexamples and witnesses) -/

/-- A sample context. -/
def ctxA : Context := ⟨1, 2, 3⟩

/-- A second, different sample context. -/
def ctxB : Context := ⟨4, 5, 6⟩

/-- A pristine state: no engine, no menus, no watchers, empty trace. -/
def initState : SysState :=
  { reg := ⟨0, []⟩, disabledMenuShown := false, tankMenuShown := false,
    currentEngine := none, oneShotWatchers := [], trace := [] }

/-- An armed engine watcher (as `init_engine` would have registered). -/
def wEng : SceneEventWatcher :=
  { message_ids := [0, 1, 2, 3], scene_events := defaultSceneEvents,
    cb_engine_name := "tk-maya", cb_prev_context := ctxA, run_once := false }

/-- A running engine bound to `ctxA`. -/
def engA : EngineObj := { eid := 10, ctx := ctxA, watcher := wEng }

/-- A state with `engA` running and its watcher registered. -/
def runningState : SysState :=
  { reg := ⟨4, [0, 1, 2, 3]⟩, disabledMenuShown := false,
    tankMenuShown := true, currentEngine := some engA,
    oneShotWatchers := [], trace := [] }

/-- Host/Tank environment for a file→new event (empty scene name). -/
def envFileNew : Env :=
  { sceneName := "", abspath := id,
    tank_from_path := fun _ => .ok 0,
    context_from_path := fun _ _ c => .ok c,
    start_engine_result := fun _ _ _ => .ok 1 }

/-- Environment where the document path lies outside any workspace:
`tank_from_path` raises a `TankError`. -/
def envUnresolvable : Env :=
  { sceneName := "/elsewhere/scene.ma", abspath := id,
    tank_from_path := fun _ => .error (.tankError "not a tank path"),
    context_from_path := fun _ _ c => .ok c,
    start_engine_result := fun _ _ _ => .ok 1 }

/-- Environment resolving to the changed context `ctxB`, where engine
construction succeeds. -/
def envChangedOk : Env :=
  { sceneName := "/proj/shotB/scene.ma", abspath := id,
    tank_from_path := fun _ => .ok 7,
    context_from_path := fun _ _ _ => .ok ctxB,
    start_engine_result := fun _ _ _ => .ok 42 }

/-- Environment resolving to the changed context `ctxB`, where engine
construction raises `TankEngineInitError`. -/
def envInitFail : Env :=
  { sceneName := "/proj/shotB/scene.ma", abspath := id,
    tank_from_path := fun _ => .ok 7,
    context_from_path := fun _ _ _ => .ok ctxB,
    start_engine_result := fun _ _ _ => .error (.tankEngineInitError "boom") }

/-- Environment resolving to the unchanged context `ctxA`. -/
def envSameCtx : Env :=
  { sceneName := "/proj/shotA/scene.ma", abspath := id,
    tank_from_path := fun _ => .ok 7,
    context_from_path := fun _ _ _ => .ok ctxA,
    start_engine_result := fun _ _ _ => .ok 43 }

/-- Environment where context resolution raises an unanticipated
exception (neither `TankError` nor `TankEngineInitError`). -/
def envUnexpected : Env :=
  { sceneName := "/proj/shotB/scene.ma", abspath := id,
    tank_from_path := fun _ => .ok 7,
    context_from_path := fun _ _ _ => .error (.other "boom"),
    start_engine_result := fun _ _ _ => .ok 1 }

/-! ### C8 -/

/-- C8: calling `stop_watching` twice in a row leaves the watcher's
registration set (`__message_ids`) empty, and the second call is a no-op
on both the registry and the watcher.  (The model is a total function, so
neither call can raise.) -/
theorem c8_stop_watching_idempotent (r : Registry) (w : SceneEventWatcher) :
    stop_watching (stop_watching r w).1 (stop_watching r w).2 =
        stop_watching r w ∧
      (stop_watching r w).2.message_ids = [] :=
  ⟨rfl, rfl⟩

/-- With an empty scene name `refresh_engine` only resets the disabled
menu and returns the current engine. -/
theorem refresh_empty_scene (env : Env) (en : String) (pc : Context)
    (s : SysState) (h : env.sceneName = "") :
    refresh_engine env en pc s =
      ({ s with disabledMenuShown := false }, .ok s.currentEngine) := by
  have he : ∀ t : SysState, t.disabledMenuShown = false →
      ({ t with disabledMenuShown := false } : SysState) = t := by
    intro t ht; cases t; simp_all
  cases hd : s.disabledMenuShown
  · simp [refresh_engine, h, hd, he s hd]
  · simp [refresh_engine, h, hd]

/-! ### C5 -/

/-- C5 (counterexample): with an empty scene name the state is *not* left
unchanged — `refresh_engine` first resets the `TankMenuDisabled` menu, so
a state showing the disabled indicator loses it on a file→new event. -/
theorem c5_counterexample :
    (refresh_engine envFileNew "tk-maya" ctxA
        { initState with disabledMenuShown := true }).1 ≠
        { initState with disabledMenuShown := true } ∧
      (refresh_engine envFileNew "tk-maya" ctxA
        { initState with disabledMenuShown := true }).1.disabledMenuShown
        = false := by
  constructor
  · intro h
    have := congrArg SysState.disabledMenuShown h
    simp [refresh_engine, envFileNew, initState] at this
  · rfl

/-- C5 (amended): with an empty scene name, `refresh_engine` keeps the
current engine (possibly null), performs no destroy, no construction and
no workspace resolution (the trace is untouched), and returns the current
engine — but it does clear the disabled indicator first (the menu reset
precedes the empty-path check), so the full state is unchanged only up to
that reset. -/
theorem c5_empty_path_keeps_engine (env : Env) (en : String) (pc : Context)
    (s : SysState) (h : env.sceneName = "") :
    refresh_engine env en pc s =
      ({ s with disabledMenuShown := false }, .ok s.currentEngine) :=
  refresh_empty_scene env en pc s h

/-- C5 (witness): the amended theorem at the file→new environment and the
pristine state. -/
theorem c5_witness :
    refresh_engine envFileNew "tk-maya" ctxA initState =
      ({ initState with disabledMenuShown := false },
        .ok initState.currentEngine) :=
  c5_empty_path_keeps_engine envFileNew "tk-maya" ctxA initState rfl

/-! ### C4 -/

/-- C4: when `tank_from_path` raises a `TankError`, the current engine —
running or not — is left exactly as it was (same `currentEngine`, same
registry, so its watcher is untouched and `destroy` is never called: the
trace grows only by the resolution attempt and the informational
message), the disabled indicator is rendered, and the current engine is
returned.  With no engine running this is precisely the Disabled state. -/
theorem c4_unresolvable_keeps_engine (env : Env) (en : String)
    (pc : Context) (s : SysState) (m : String)
    (hname : ¬ env.sceneName = "")
    (htk : env.tank_from_path (env.abspath env.sceneName) =
      .error (.tankError m)) :
    refresh_engine env en pc s =
      ({ s with disabledMenuShown := true, tankMenuShown := false,
                trace := s.trace ++
                  [Ev.tankFromPathCall (env.abspath env.sceneName),
                   Ev.displayInfo ("Tank Engine cannot be started: " ++ m)] },
       .ok s.currentEngine) ∧
      ∀ i, ((refresh_engine env en pc s).1.trace.count (Ev.destroyCall i) =
        s.trace.count (Ev.destroyCall i)) := by
  have hmain : refresh_engine env en pc s =
      ({ s with disabledMenuShown := true, tankMenuShown := false,
                trace := s.trace ++
                  [Ev.tankFromPathCall (env.abspath env.sceneName),
                   Ev.displayInfo ("Tank Engine cannot be started: " ++ m)] },
       .ok s.currentEngine) := by
    cases hd : s.disabledMenuShown <;>
      simp [refresh_engine, hname, htk, hd, create_tank_disabled_menu]
  refine ⟨hmain, ?_⟩
  intro i
  rw [hmain]
  simp [List.count_append]

/-- C4 (witness): the theorem at the unresolvable-path environment with
`engA` running. -/
theorem c4_witness :
    refresh_engine envUnresolvable "tk-maya" ctxA runningState =
      ({ runningState with
                disabledMenuShown := true, tankMenuShown := false,
                trace := runningState.trace ++
                  [Ev.tankFromPathCall
                    (envUnresolvable.abspath envUnresolvable.sceneName),
                   Ev.displayInfo
                    ("Tank Engine cannot be started: " ++ "not a tank path")] },
       .ok runningState.currentEngine) ∧
      ∀ i, ((refresh_engine envUnresolvable "tk-maya" ctxA
          runningState).1.trace.count (Ev.destroyCall i) =
        runningState.trace.count (Ev.destroyCall i)) :=
  c4_unresolvable_keeps_engine envUnresolvable "tk-maya" ctxA runningState
    "not a tank path" (by decide) rfl

/-! ### C3 -/

/-- C3: when the resolved context differs from the previous one while an
engine is running, the observable call order is: resolution, then
`destroy()` of the running engine (whose state effects — watcher stopped,
menu deleted, current engine cleared — are applied before proceeding),
then `start_engine` for the new context. -/
theorem c3_destroy_before_start (env : Env) (en : String) (pc : Context)
    (s : SysState) (tk : Nat) (ctx : Context) (e : EngineObj)
    (hname : ¬ env.sceneName = "")
    (htk : env.tank_from_path (env.abspath env.sceneName) = .ok tk)
    (hctx : env.context_from_path tk (env.abspath env.sceneName) pc = .ok ctx)
    (hne : ¬ ctx = pc)
    (heng : s.currentEngine = some e) :
    ∃ tr, (refresh_engine env en pc s).1.trace =
      s.trace ++ [Ev.tankFromPathCall (env.abspath env.sceneName),
                  Ev.destroyCall e.eid, Ev.startEngineCall ctx] ++ tr := by
  cases hd : s.disabledMenuShown <;>
    (cases hres : env.start_engine_result en tk ctx with
     | ok eid =>
        exact ⟨[], by
          simp [refresh_engine, hname, htk, hctx, hne, heng, hd, hres,
            start_engine, EngineObj.destroy, stop_watching,
            create_tank_disabled_menu]⟩
     | error resv =>
        cases resv with
        | tankError m =>
            exact ⟨[], by
              simp [refresh_engine, hname, htk, hctx, hne, heng, hd, hres,
                start_engine, EngineObj.destroy, stop_watching,
                create_tank_disabled_menu]⟩
        | tankEngineInitError m =>
            exact ⟨[Ev.displayInfo ("Tank Engine cannot be started: " ++ m)],
              by
              simp [refresh_engine, hname, htk, hctx, hne, heng, hd, hres,
                start_engine, EngineObj.destroy, stop_watching,
                create_tank_disabled_menu]⟩
        | other m =>
            exact ⟨[], by
              simp [refresh_engine, hname, htk, hctx, hne, heng, hd, hres,
                start_engine, EngineObj.destroy, stop_watching,
                create_tank_disabled_menu]⟩)

/-- C3 (witness): the theorem at the changed-context environment with
`engA` running. -/
theorem c3_witness :
    ∃ tr, (refresh_engine envChangedOk "tk-maya" ctxA runningState).1.trace =
      runningState.trace ++
        [Ev.tankFromPathCall (envChangedOk.abspath envChangedOk.sceneName),
         Ev.destroyCall engA.eid, Ev.startEngineCall ctxB] ++ tr :=
  c3_destroy_before_start envChangedOk "tk-maya" ctxA runningState 7 ctxB
    engA (by decide) rfl rfl (by decide) rfl

/-! ### C9 -/

/-- C9: with no engine running, resolving to a context equal to the
previous one does *not* take the no-rebuild shortcut (the guard requires
a live engine): construction is still attempted for that context, with no
destroy in between — which is what makes retry after a prior construction
failure possible on an unchanged context. -/
theorem c9_no_engine_same_context_rebuilds (env : Env) (en : String)
    (pc : Context) (s : SysState) (tk : Nat)
    (hname : ¬ env.sceneName = "")
    (htk : env.tank_from_path (env.abspath env.sceneName) = .ok tk)
    (hctx : env.context_from_path tk (env.abspath env.sceneName) pc = .ok pc)
    (heng : s.currentEngine = none) :
    ∃ tr, (refresh_engine env en pc s).1.trace =
      s.trace ++ [Ev.tankFromPathCall (env.abspath env.sceneName),
                  Ev.startEngineCall pc] ++ tr := by
  cases hd : s.disabledMenuShown <;>
    (cases hres : env.start_engine_result en tk pc with
     | ok eid =>
        exact ⟨[], by
          simp [refresh_engine, hname, htk, hctx, heng, hd, hres,
            start_engine, create_tank_disabled_menu]⟩
     | error resv =>
        cases resv with
        | tankError m =>
            exact ⟨[], by
              simp [refresh_engine, hname, htk, hctx, heng, hd, hres,
                start_engine, create_tank_disabled_menu]⟩
        | tankEngineInitError m =>
            exact ⟨[Ev.displayInfo ("Tank Engine cannot be started: " ++ m)],
              by
              simp [refresh_engine, hname, htk, hctx, heng, hd, hres,
                start_engine, create_tank_disabled_menu]⟩
        | other m =>
            exact ⟨[], by
              simp [refresh_engine, hname, htk, hctx, heng, hd, hres,
                start_engine, create_tank_disabled_menu]⟩)

/-- C9 (witness): the theorem at the same-context environment with no
engine running. -/
theorem c9_witness :
    ∃ tr, (refresh_engine envSameCtx "tk-maya" ctxA initState).1.trace =
      initState.trace ++
        [Ev.tankFromPathCall (envSameCtx.abspath envSameCtx.sceneName),
         Ev.startEngineCall ctxA] ++ tr :=
  c9_no_engine_same_context_rebuilds envSameCtx "tk-maya" ctxA initState 7
    (by decide) rfl rfl rfl

/-! ### C2 -/

/-- Full event-handler run for the scenario: no engine running, context
resolves and differs from the previous one, engine construction raises
`TankEngineInitError`.  The handler ends Disabled with the disabled menu
shown and a fresh one-shot watcher appended. -/
theorem osec_none_init_fail (env : Env) (en : String) (pc : Context)
    (s : SysState) (tk : Nat) (ctx : Context) (m : String)
    (hname : ¬ env.sceneName = "")
    (htk : env.tank_from_path (env.abspath env.sceneName) = .ok tk)
    (hctx : env.context_from_path tk (env.abspath env.sceneName) pc = .ok ctx)
    (hne : ¬ ctx = pc)
    (hfail : env.start_engine_result en tk ctx =
      .error (.tankEngineInitError m))
    (heng : s.currentEngine = none) :
    on_scene_event_callback env en pc s =
      { reg := (newWatcher s.reg en pc true).1
        disabledMenuShown := true
        tankMenuShown := false
        currentEngine := none
        oneShotWatchers := s.oneShotWatchers ++ [(newWatcher s.reg en pc true).2]
        trace := s.trace ++
          [Ev.tankFromPathCall (env.abspath env.sceneName),
           Ev.startEngineCall ctx,
           Ev.displayInfo ("Tank Engine cannot be started: " ++ m)] } := by
  cases hd : s.disabledMenuShown <;>
    simp [on_scene_event_callback, refresh_engine, hname, htk, hctx, hne,
      heng, hd, hfail, start_engine, create_tank_disabled_menu]

/-- Full event-handler run for the scenario: an engine is running, the
context resolves and differs, construction of the replacement raises
`TankEngineInitError`.  The running engine is destroyed first, the
handler ends Disabled with a fresh one-shot watcher appended. -/
theorem osec_some_init_fail (env : Env) (en : String) (pc : Context)
    (s : SysState) (tk : Nat) (ctx : Context) (m : String) (e : EngineObj)
    (hname : ¬ env.sceneName = "")
    (htk : env.tank_from_path (env.abspath env.sceneName) = .ok tk)
    (hctx : env.context_from_path tk (env.abspath env.sceneName) pc = .ok ctx)
    (hne : ¬ ctx = pc)
    (hfail : env.start_engine_result en tk ctx =
      .error (.tankEngineInitError m))
    (heng : s.currentEngine = some e) :
    on_scene_event_callback env en pc s =
      { reg := (newWatcher (e.watcher.message_ids.foldl removeCallback s.reg)
          en pc true).1
        disabledMenuShown := true
        tankMenuShown := false
        currentEngine := none
        oneShotWatchers := s.oneShotWatchers ++
          [(newWatcher (e.watcher.message_ids.foldl removeCallback s.reg)
            en pc true).2]
        trace := s.trace ++
          [Ev.tankFromPathCall (env.abspath env.sceneName),
           Ev.destroyCall e.eid,
           Ev.startEngineCall ctx,
           Ev.displayInfo ("Tank Engine cannot be started: " ++ m)] } := by
  cases hd : s.disabledMenuShown <;>
    simp [on_scene_event_callback, refresh_engine, hname, htk, hctx, hne,
      heng, hd, hfail, start_engine, EngineObj.destroy, stop_watching,
      create_tank_disabled_menu]

/-- C2: when resolution yields a changed context and `start_engine`
raises `TankEngineInitError`, the handler ends with no engine and the
disabled indicator shown (the Disabled state), a one-shot watcher is
appended holding live registrations and capturing the same callback data,
and firing that watcher on the resulting state runs resolution again
(`tank_from_path` is called once more on the same path). -/
theorem c2_init_error_disables_and_rearms (env : Env) (en : String)
    (pc : Context) (s : SysState) (tk : Nat) (ctx : Context) (m : String)
    (hname : ¬ env.sceneName = "")
    (htk : env.tank_from_path (env.abspath env.sceneName) = .ok tk)
    (hctx : env.context_from_path tk (env.abspath env.sceneName) pc = .ok ctx)
    (hne : ¬ ctx = pc)
    (hfail : env.start_engine_result en tk ctx =
      .error (.tankEngineInitError m)) :
    (on_scene_event_callback env en pc s).currentEngine = none ∧
      (on_scene_event_callback env en pc s).disabledMenuShown = true ∧
      (∃ w, (on_scene_event_callback env en pc s).oneShotWatchers =
          s.oneShotWatchers ++ [w] ∧ w.run_once = true ∧
          ¬ w.message_ids = [] ∧ w.cb_engine_name = en ∧
          w.cb_prev_context = pc) ∧
      (∃ tr, (fire_one_shot env (on_scene_event_callback env en pc s)
          s.oneShotWatchers.length).trace =
        (on_scene_event_callback env en pc s).trace ++
          Ev.tankFromPathCall (env.abspath env.sceneName) :: tr) := by
  have harm : ∀ r : Registry, ¬ (newWatcher r en pc true).2.message_ids = [] := by
    intro r
    simp [newWatcher_message_ids]
  have hfields : ∀ r : Registry, (newWatcher r en pc true).2.run_once = true ∧
      (newWatcher r en pc true).2.cb_engine_name = en ∧
      (newWatcher r en pc true).2.cb_prev_context = pc := by
    intro r
    obtain ⟨h1, h2, h3⟩ := newWatcher_fields r en pc true
    exact ⟨h3, h1, h2⟩
  cases heng : s.currentEngine with
  | none =>
      have hs' := osec_none_init_fail env en pc s tk ctx m hname htk hctx
        hne hfail heng
      refine ⟨by rw [hs'], by rw [hs'], ?_, ?_⟩
      · exact ⟨(newWatcher s.reg en pc true).2, by rw [hs'],
          (hfields _).1, harm _, (hfields _).2.1, (hfields _).2.2⟩
      · have htr : ∀ t : SysState, t.currentEngine = none →
            (on_scene_event_callback env en pc t).trace = t.trace ++
              [Ev.tankFromPathCall (env.abspath env.sceneName),
               Ev.startEngineCall ctx,
               Ev.displayInfo ("Tank Engine cannot be started: " ++ m)] := by
          intro t ht
          rw [osec_none_init_fail env en pc t tk ctx m hname htk hctx hne
            hfail ht]
        rw [hs']
        refine ⟨[Ev.startEngineCall ctx,
          Ev.displayInfo ("Tank Engine cannot be started: " ++ m)], ?_⟩
        simp only [fire_one_shot, List.getElem?_concat_length,
          (hfields s.reg).1, (hfields s.reg).2.1, (hfields s.reg).2.2,
          if_true]
        rw [htr]
        · simp
  | some e =>
      have hs' := osec_some_init_fail env en pc s tk ctx m e hname htk hctx
        hne hfail heng
      refine ⟨by rw [hs'], by rw [hs'], ?_, ?_⟩
      · exact ⟨(newWatcher (e.watcher.message_ids.foldl removeCallback s.reg)
          en pc true).2, by rw [hs'],
          (hfields _).1, harm _, (hfields _).2.1, (hfields _).2.2⟩
      · have htr : ∀ t : SysState, t.currentEngine = none →
            (on_scene_event_callback env en pc t).trace = t.trace ++
              [Ev.tankFromPathCall (env.abspath env.sceneName),
               Ev.startEngineCall ctx,
               Ev.displayInfo ("Tank Engine cannot be started: " ++ m)] := by
          intro t ht
          rw [osec_none_init_fail env en pc t tk ctx m hname htk hctx hne
            hfail ht]
        rw [hs']
        refine ⟨[Ev.startEngineCall ctx,
          Ev.displayInfo ("Tank Engine cannot be started: " ++ m)], ?_⟩
        simp only [fire_one_shot, List.getElem?_concat_length,
          (hfields (e.watcher.message_ids.foldl removeCallback s.reg)).1,
          (hfields (e.watcher.message_ids.foldl removeCallback s.reg)).2.1,
          (hfields (e.watcher.message_ids.foldl removeCallback s.reg)).2.2,
          if_true]
        rw [htr]
        · simp

/-- C2 (witness): the theorem at the failing-construction environment
with no engine running. -/
theorem c2_witness :
    (on_scene_event_callback envInitFail "tk-maya" ctxA
        initState).currentEngine = none ∧
      (on_scene_event_callback envInitFail "tk-maya" ctxA
        initState).disabledMenuShown = true ∧
      (∃ w, (on_scene_event_callback envInitFail "tk-maya" ctxA
          initState).oneShotWatchers = initState.oneShotWatchers ++ [w] ∧
          w.run_once = true ∧ ¬ w.message_ids = [] ∧
          w.cb_engine_name = "tk-maya" ∧ w.cb_prev_context = ctxA) ∧
      (∃ tr, (fire_one_shot envInitFail
          (on_scene_event_callback envInitFail "tk-maya" ctxA initState)
          initState.oneShotWatchers.length).trace =
        (on_scene_event_callback envInitFail "tk-maya" ctxA
          initState).trace ++
          Ev.tankFromPathCall
            (envInitFail.abspath envInitFail.sceneName) :: tr) :=
  c2_init_error_disables_and_rearms envInitFail "tk-maya" ctxA initState 7
    ctxB "boom" (by decide) rfl rfl (by decide) rfl

/-! ### C1 -/

/-- Whenever `refresh_engine` returns a non-null engine, that engine is
the current one afterwards, and it is either the engine that was already
current before the event or a freshly constructed one whose watcher holds
live registrations. -/
theorem refresh_ok_some {env : Env} {en : String} {pc : Context}
    {s s₁ : SysState} {e : EngineObj}
    (h : refresh_engine env en pc s = (s₁, .ok (some e))) :
    s₁.currentEngine = some e ∧
      (s.currentEngine = some e ∨ ¬ e.watcher.message_ids = []) := by
  by_cases hsn : env.sceneName = ""
  · rw [refresh_empty_scene env en pc s hsn] at h
    simp only [Prod.mk.injEq, Except.ok.injEq] at h
    obtain ⟨h1, h2⟩ := h
    subst h1
    exact ⟨h2, Or.inl h2⟩
  · cases hd : s.disabledMenuShown <;>
    · cases htk : env.tank_from_path (env.abspath env.sceneName) with
      | error ex =>
          cases ex with
          | tankError m =>
              simp only [refresh_engine, hsn, hd, htk,
                create_tank_disabled_menu, if_false, Bool.false_eq_true,
                if_true, ite_false, ite_true, Prod.mk.injEq,
                Except.ok.injEq] at h
              obtain ⟨h1, h2⟩ := h
              subst h1
              exact ⟨h2, Or.inl h2⟩
          | tankEngineInitError m =>
              simp [refresh_engine, hsn, hd, htk] at h
          | other m =>
              simp [refresh_engine, hsn, hd, htk] at h
      | ok tk =>
          cases hctx : env.context_from_path tk (env.abspath env.sceneName)
            pc with
          | error ex =>
              simp [refresh_engine, hsn, hd, htk, hctx] at h
          | ok ctx =>
              cases hcur : s.currentEngine with
              | some e0 =>
                  by_cases hcp : ctx = pc
                  · simp only [refresh_engine, hsn, hd, htk, hctx, hcur,
                      hcp, Option.isSome_some, and_true, and_self,
                      if_false, Bool.false_eq_true, if_true, ite_false,
                      ite_true, Prod.mk.injEq, Except.ok.injEq,
                      Option.some.injEq] at h
                    obtain ⟨h1, h2⟩ := h
                    subst h1
                    subst h2
                    exact ⟨rfl, Or.inl rfl⟩
                  · cases hres : env.start_engine_result en tk ctx with
                    | error ex =>
                        cases ex <;>
                          simp [refresh_engine, hsn, hd, htk, hctx, hcur,
                            hcp, hres, start_engine, EngineObj.destroy,
                            create_tank_disabled_menu] at h
                    | ok eid =>
                        simp only [refresh_engine, hsn, hd, htk, hctx,
                          hcur, hcp, hres, start_engine, EngineObj.destroy,
                          stop_watching, Option.isSome_some, and_true,
                          and_false, if_false, Bool.false_eq_true, if_true,
                          ite_false, ite_true, Prod.mk.injEq,
                          Except.ok.injEq, Option.some.injEq] at h
                        obtain ⟨h1, h2⟩ := h
                        subst h1
                        subst h2
                        refine ⟨rfl, Or.inr ?_⟩
                        simp [newWatcher_message_ids]
              | none =>
                  cases hres : env.start_engine_result en tk ctx with
                  | error ex =>
                      cases ex <;>
                        simp [refresh_engine, hsn, hd, htk, hctx, hcur,
                          hres, start_engine,
                          create_tank_disabled_menu] at h
                  | ok eid =>
                      simp only [refresh_engine, hsn, hd, htk, hctx, hcur,
                        hres, start_engine, Option.isSome_none,
                        false_and, if_false, Bool.false_eq_true, if_true,
                        ite_false, ite_true, Prod.mk.injEq,
                        Except.ok.injEq, Option.some.injEq] at h
                      obtain ⟨h1, h2⟩ := h
                      subst h1
                      subst h2
                      refine ⟨rfl, Or.inr ?_⟩
                      simp [newWatcher_message_ids]

/-- C1 (counterexample): a file→new event (empty scene name) arriving
with no engine running leaves the system with *neither* an engine running
*nor* the disabled indicator shown — the "exactly one of" part of the
invariant fails (the watcher is still re-armed). -/
theorem c1_counterexample :
    (on_scene_event_callback envFileNew "tk-maya" ctxA
        initState).currentEngine = none ∧
      (on_scene_event_callback envFileNew "tk-maya" ctxA
        initState).disabledMenuShown = false := by
  constructor <;> rfl

/-- C1 (amended): after every event the watcher is left armed — either a
one-shot watcher created by the handler or the (old or new) engine's
persistent watcher holds live registrations — provided the incoming
engine's watcher was armed.  The "exactly one of {engine running,
disabled indicator shown}" part of the claimed invariant does not hold
(see the counterexample; both can also hold at once after an
unresolvable path while running). -/
theorem c1_watcher_always_armed (env : Env) (en : String) (pc : Context)
    (s : SysState)
    (hWF : ∀ e, s.currentEngine = some e → ¬ e.watcher.message_ids = []) :
    (on_scene_event_callback env en pc s).watcherArmed = true := by
  unfold on_scene_event_callback
  cases hr : refresh_engine env en pc s with
  | mk s₁ res =>
      cases res with
      | ok ne =>
          cases ne with
          | some e =>
              obtain ⟨hcur, hor⟩ := refresh_ok_some hr
              have harm : ¬ e.watcher.message_ids = [] := by
                rcases hor with h | h
                · exact hWF e h
                · exact h
              simp [SysState.watcherArmed, hcur, harm,
                List.isEmpty_eq_false]
          | none =>
              simp [SysState.watcherArmed, List.any_append,
                newWatcher_message_ids]
      | error ex =>
          simp [SysState.watcherArmed, List.any_append,
            newWatcher_message_ids]

/-- C1 (witness): the amended theorem at the changed-context environment
with `engA` running (its watcher armed). -/
theorem c1_witness :
    (on_scene_event_callback envChangedOk "tk-maya" ctxA
        runningState).watcherArmed = true :=
  c1_watcher_always_armed envChangedOk "tk-maya" ctxA runningState
    (by intro e he; injection he with h; rw [← h]; decide)

/-! ### C6 -/

/-- C6 (counterexample): an unanticipated exception (here raised by
`context_from_path`) is caught, but the handler does *not* render the
disabled indicator — with no engine running the system ends with neither
an engine nor the indicator, contradicting "treated exactly like an
engine-construction failure" (which does render it). -/
theorem c6_counterexample :
    refresh_engine envUnexpected "tk-maya" ctxA initState =
        ({ initState with
              trace := [Ev.tankFromPathCall "/proj/shotB/scene.ma"] },
         .error (.other "boom")) ∧
      (on_scene_event_callback envUnexpected "tk-maya" ctxA
        initState).disabledMenuShown = false ∧
      (on_scene_event_callback envUnexpected "tk-maya" ctxA
        initState).currentEngine = none :=
  ⟨rfl, rfl, rfl⟩

/-- C6 (amended): every exception the two anticipated handlers do not
catch is caught at the top of `on_scene_event_callback` (the handler is
total), logged via `displayError` with the diagnostic message, and a
one-shot watcher with live registrations is re-armed — but, unlike the
engine-construction-failure path, the disabled indicator is *not*
rendered and the engine slot is left exactly as the failure left it (the
result only adds the error log and the watcher to the failure state). -/
theorem c6_unexpected_caught (env : Env) (en : String) (pc : Context)
    (s s₁ : SysState) (ex : PyExc)
    (hr : refresh_engine env en pc s = (s₁, .error ex)) :
    on_scene_event_callback env en pc s =
      { s₁ with
          reg := (newWatcher s₁.reg en pc true).1,
          oneShotWatchers := s₁.oneShotWatchers ++
            [(newWatcher s₁.reg en pc true).2],
          trace := s₁.trace ++
            [Ev.displayError
              ("There was a problem starting the Tank Engine: "
                ++ ex.message)] } ∧
      ¬ (newWatcher s₁.reg en pc true).2.message_ids = [] ∧
      (newWatcher s₁.reg en pc true).2.run_once = true := by
  refine ⟨?_, by simp [newWatcher_message_ids],
    (newWatcher_fields s₁.reg en pc true).2.2⟩
  simp only [on_scene_event_callback, hr]

/-- C6 (witness): the amended theorem at the unexpected-exception
environment and the pristine state. -/
theorem c6_witness :
    on_scene_event_callback envUnexpected "tk-maya" ctxA initState =
      { ({ initState with
            trace := [Ev.tankFromPathCall "/proj/shotB/scene.ma"] }
          : SysState) with
          reg := (newWatcher ({ initState with
            trace := [Ev.tankFromPathCall "/proj/shotB/scene.ma"] }
              : SysState).reg "tk-maya" ctxA true).1,
          oneShotWatchers := ({ initState with
            trace := [Ev.tankFromPathCall "/proj/shotB/scene.ma"] }
              : SysState).oneShotWatchers ++
            [(newWatcher ({ initState with
              trace := [Ev.tankFromPathCall "/proj/shotB/scene.ma"] }
                : SysState).reg "tk-maya" ctxA true).2],
          trace := ({ initState with
            trace := [Ev.tankFromPathCall "/proj/shotB/scene.ma"] }
              : SysState).trace ++
            [Ev.displayError
              ("There was a problem starting the Tank Engine: "
                ++ (PyExc.other "boom").message)] } ∧
      ¬ (newWatcher ({ initState with
          trace := [Ev.tankFromPathCall "/proj/shotB/scene.ma"] }
            : SysState).reg "tk-maya" ctxA true).2.message_ids = [] ∧
      (newWatcher ({ initState with
          trace := [Ev.tankFromPathCall "/proj/shotB/scene.ma"] }
            : SysState).reg "tk-maya" ctxA true).2.run_once = true :=
  c6_unexpected_caught envUnexpected "tk-maya" ctxA initState
    { initState with trace := [Ev.tankFromPathCall "/proj/shotB/scene.ma"] }
    (.other "boom") rfl

/-! ### C7 -/

/-- The progress-bar steps a run of reports produces, starting from the
last reported value `p`: one delta per report. -/
def reportsTrace (p : Int) : List Int → List Ev
  | [] => []
  | x :: xs => Ev.progressStep (x - p) :: reportsTrace x xs

/-- The full observable segment one job contributes to the drain trace:
begin progress under its name, its progress deltas (from the reset value
0), its outcome (done or a logged exception), and exactly one
end-progress signal. -/
def jobTrace (j : Job) : List Ev :=
  (Ev.beginProgress j.name :: reportsTrace 0 j.method.reports) ++
    [if j.method.raises then Ev.logException j.name else Ev.jobDone j.name,
     Ev.endProgress]

/-- Folding `report_progress` only appends the progress deltas to the
trace. -/
theorem foldl_report_trace (rs : List Int) : ∀ s : QueueState,
    (rs.foldl report_progress s).trace =
      s.trace ++ reportsTrace s.currentProgress rs := by
  induction rs with
  | nil => intro s; simp [reportsTrace]
  | cons x xs ih =>
      intro s
      simp only [List.foldl_cons]
      rw [ih]
      simp [report_progress, reportsTrace]

/-- Folding `report_progress` never touches the heap of dicts. -/
theorem foldl_report_store (rs : List Int) : ∀ s : QueueState,
    (rs.foldl report_progress s).store = s.store := by
  induction rs with
  | nil => intro s; rfl
  | cons x xs ih =>
      intro s
      simp only [List.foldl_cons]
      rw [ih]
      rfl

/-- Progress deltas contain no end-progress signal. -/
theorem reportsTrace_count_end : ∀ (p : Int) (rs : List Int),
    (reportsTrace p rs).count Ev.endProgress = 0 := by
  intro p rs
  induction rs generalizing p with
  | nil => rfl
  | cons x xs ih => simp [reportsTrace, ih]

/-- Every job's trace segment carries exactly one end-progress signal,
whether its action raised or not. -/
theorem jobTrace_count_end (j : Job) :
    (jobTrace j).count Ev.endProgress = 1 := by
  cases hrz : j.method.raises <;>
    simp [jobTrace, hrz, List.count_append, List.count_cons,
      reportsTrace_count_end]

/-- The drain loop runs every queued job in FIFO order: its trace is
exactly the concatenation of the jobs' segments, raises included. -/
theorem execute_queue_loop_trace : ∀ (js : List Job) (s : QueueState),
    (execute_queue_loop s js).trace = s.trace ++ (js.map jobTrace).flatten := by
  intro js
  induction js with
  | nil => intro s; simp [execute_queue_loop]
  | cons j rest ih =>
      intro s
      cases hrz : j.method.raises <;>
        simp [execute_queue_loop, runAction, hrz, ih, foldl_report_trace,
          QueueState.heapSet, jobTrace, reportsTrace]

/-- C7: draining executes every enqueued job in FIFO order — the trace is
the deprecation warning followed by each job's complete segment in
enqueue order, so each job (including its single end-progress signal)
finishes before the next starts, and a raising job only contributes a
logged exception while the rest still run; the end-progress count equals
the number of queued jobs; and `add_to_queue` appends at the tail. -/
theorem c7_execute_queue_fifo_isolated (s : QueueState) :
    (execute_queue s).trace =
        s.trace ++ Ev.logWarning deprecationMsg ::
          (s.queue.map jobTrace).flatten ∧
      (execute_queue s).trace.count Ev.endProgress =
        s.trace.count Ev.endProgress + s.queue.length ∧
      ∀ name a ref, (add_to_queue s name a ref).queue =
        s.queue ++ [{ name := name, method := a, args := ref }] := by
  have h1 : (execute_queue s).trace =
      s.trace ++ Ev.logWarning deprecationMsg ::
        (s.queue.map jobTrace).flatten := by
    simp [execute_queue, execute_queue_loop_trace]
  refine ⟨h1, ?_, ?_⟩
  · rw [h1]
    have hj : ∀ js : List Job,
        ((js.map jobTrace).flatten).count Ev.endProgress = js.length := by
      intro js
      induction js with
      | nil => rfl
      | cons j rest ih =>
          simp [List.count_append, ih, jobTrace_count_end, Nat.add_comm]
    simp [List.count_append, List.count_cons, hj]
  · intro name a ref
    simp [add_to_queue]

/-! ### C10 -/

/-- Setting a key makes it readable. -/
theorem Dict.get_set_self (d : Dict) (k : String) (v : PyVal) :
    (Dict.set d k v).get k = some v := by
  induction d with
  | nil => simp [Dict.set, Dict.get]
  | cons kv rest ih =>
      by_cases h : kv.1 = k <;> simp [Dict.set, Dict.get, h, ih]

/-- Setting a key leaves every other key's value unchanged. -/
theorem Dict.get_set_ne (d : Dict) (k k' : String) (v : PyVal)
    (h : ¬ k' = k) : (Dict.set d k v).get k' = d.get k' := by
  have h' : ¬ k = k' := fun hh => h hh.symm
  induction d with
  | nil => simp [Dict.set, Dict.get, h']
  | cons kv rest ih =>
      by_cases hk : kv.1 = k
      · by_cases hk' : kv.1 = k' <;>
          simp_all [Dict.set, Dict.get]
      · by_cases hk' : kv.1 = k' <;>
          simp [Dict.set, Dict.get, hk, hk', ih, h]

/-- C10: draining a queue holding one job enqueued with a reference to
the caller's args dict mutates that very dict in place —
`kwargs["progress_callback"]` is added under the caller's retained
reference — while every other entry of the dict is left unchanged. -/
theorem c10_args_mutated_in_place (s : QueueState) (name : String)
    (a : JobAction) (ref : Nat)
    (hq : s.queue = [])
    (href : ref < s.store.length) :
    ((execute_queue (add_to_queue s name a ref)).heapGet ref).get
        "progress_callback" = some PyVal.progress_cb ∧
      ∀ k, ¬ k = "progress_callback" →
        ((execute_queue (add_to_queue s name a ref)).heapGet ref).get k =
          (s.heapGet ref).get k := by
  have hstore : (execute_queue (add_to_queue s name a ref)).store =
      s.store.set ref
        ((s.heapGet ref).set "progress_callback" PyVal.progress_cb) := by
    cases hrz : a.raises <;>
      simp [execute_queue, add_to_queue, hq, execute_queue_loop,
        QueueState.heapSet, QueueState.heapGet, foldl_report_store,
        runAction, hrz]
  have hget : (execute_queue (add_to_queue s name a ref)).heapGet ref =
      (s.heapGet ref).set "progress_callback" PyVal.progress_cb := by
    simp [QueueState.heapGet, hstore, List.getElem?_set_self, href]
  refine ⟨?_, ?_⟩
  · rw [hget, Dict.get_set_self]
  · intro k hk
    rw [hget, Dict.get_set_ne _ _ _ _ hk]

/-- C10 (witness): the theorem at a concrete one-dict heap: after the
drain, the caller's dict holds both its original entry and the injected
callback. -/
theorem c10_witness :
    ((execute_queue (add_to_queue
          { queue := [], store := [[("frames", PyVal.val "1-10")]],
            currentProgress := 0, trace := [] }
          "render" { reports := [50], raises := false } 0)).heapGet 0).get
        "progress_callback" = some PyVal.progress_cb ∧
      ∀ k, ¬ k = "progress_callback" →
        ((execute_queue (add_to_queue
            { queue := [], store := [[("frames", PyVal.val "1-10")]],
              currentProgress := 0, trace := [] }
            "render" { reports := [50], raises := false } 0)).heapGet 0).get
            k =
          (({ queue := [], store := [[("frames", PyVal.val "1-10")]],
              currentProgress := 0, trace := [] } : QueueState).heapGet
            0).get k :=
  c10_args_mutated_in_place
    { queue := [], store := [[("frames", PyVal.val "1-10")]],
      currentProgress := 0, trace := [] }
    "render" { reports := [50], raises := false } 0 rfl (by decide)

end TkMaya
